import Mathlib

/-!
Shallow embedding of `src/agentpark.py` (morning-briefing aggregator) and of
the `src/app.py` wrapper, together with theorems settling the claims about
this program.

Modelling conventions:
* External HTTP requests are modelled by environment records: each fetcher
  takes a record holding the provider's answer for the one request the code
  issues.  A request that raises (missing network, non-2xx status via
  `raise_for_status`, malformed payload, credential failure) is an
  `Except.error` carrying the exception text; a successful decoded JSON body
  is `Except.ok` of a record of the fields the code reads.
* A Python function that can raise an uncaught exception is embedded with
  result type `Except String _`; `Except.error` means the exception
  propagates to the caller.  A function whose body catches every exception
  (`get_top_news`) is embedded as a total function.
* Python `dict.get` of a possibly absent / `None` field is an
  `Option String`; `(x or "")` is `Option.getD _ ""`.
* Numbers read from the weather JSON are modelled as rationals (every IEEE
  float is a rational); Python's `round` (round-half-to-even) is `pyRound`.
-/

namespace AgentPark

/-- Python's built-in `round` to an integer on a rational value:
round-half-to-even (banker's rounding), as applied by `get_weather_summary`
to the temperatures.  Computed on the numerator/denominator so that it
kernel-evaluates: `f` is the floor, `twice` is `2·(q - f)·den`. -/
def pyRound (q : ℚ) : ℤ :=
  let f : ℤ := Int.fdiv q.num (q.den : ℤ)
  let twice : ℤ := 2 * (q.num - f * (q.den : ℤ))
  if twice < (q.den : ℤ) then f
  else if (q.den : ℤ) < twice then f + 1
  else if f % 2 = 0 then f else f + 1

/-- One story object of an NYT Top Stories `results` array, restricted to the
fields `get_top_news` reads.  `sectionName` embeds the JSON field `section`
(`section` is a Lean keyword).  A missing or `null` string field is `none`;
`geo_facet`/`des_facet` model `story.get(...) or []` so a missing list is
`[]`. -/
structure Story where
  title : Option String
  abstract : Option String
  snippet : Option String
  sectionName : Option String
  subsection : Option String
  byline : Option String
  geo_facet : List String
  des_facet : List String
  published_date : Option String
deriving DecidableEq

/-- One item of the dict `get_top_news` returns. -/
structure NewsItem where
  ordinal : String
  title : String
  summary : String
deriving DecidableEq

/-- `(x or "")` for an optional JSON string field. -/
def orBlank (o : Option String) : String := o.getD ""

/-- `_build_rich_summary(story)`: the abstract (falling back to the snippet),
followed by the extra sentences built from section/subsection, geo facets,
des facets and byline, joined with single spaces; a fixed fallback when all
parts are blank. -/
def buildRichSummary (s : Story) : String :=
  let abstract0 := (orBlank s.abstract).trim
  let abstract := if abstract0 = "" then (orBlank s.snippet).trim else abstract0
  let sec := (orBlank s.sectionName).trim
  let sub := (orBlank s.subsection).trim
  let byline := (orBlank s.byline).trim
  let extra1 : List String :=
    if sec = "" then []
    else if sub = "" then
      ["This story appears in the " ++ sec ++ " section of the New York Times."]
    else
      ["This story appears in the " ++ sec ++ " – " ++ sub ++
        " section of the New York Times."]
  let extra2 : List String :=
    if s.geo_facet = [] then []
    else ["It is particularly focused on " ++
      String.intercalate ", " (s.geo_facet.take 2) ++ "."]
  let extra3 : List String :=
    if s.des_facet = [] then []
    else ["Key themes include " ++ String.intercalate ", " (s.des_facet.take 3) ++ "."]
  let extra4 : List String := if byline = "" then [] else [byline]
  let extras := extra1 ++ extra2 ++ extra3 ++ extra4
  if abstract = "" ∧ extras = [] then "No summary available."
  else String.intercalate " " (abstract :: extras)

/-- `ORDINAL_WORDS` of `get_top_news`. -/
def ORDINAL_WORDS : List String := ["first", "second", "third", "fourth", "fifth"]

/-- `ORDINAL_WORDS[idx] if idx < len(ORDINAL_WORDS) else f"{idx + 1}th"`. -/
def ordinalWord (idx : Nat) : String :=
  match ORDINAL_WORDS.get? idx with
  | some w => w
  | none => toString (idx + 1) ++ "th"

/-- The selection loop shared by both categories of `get_top_news`: walk the
candidate stories, skip a story whose stripped title is blank or already
seen, otherwise append an item (ordinal from the current position), and stop
as soon as the accumulated list reaches `cap` items (the `break` after the
append). -/
def pickLoop : List Story → Nat → List String → List NewsItem → List NewsItem
  | [], _, _, acc => acc
  | s :: rest, cap, seen, acc =>
    let title := (orBlank s.title).trim
    if title = "" ∨ title ∈ seen then pickLoop rest cap seen acc
    else
      let acc2 := acc ++ [⟨ordinalWord acc.length, title, buildRichSummary s⟩]
      if cap ≤ acc2.length then acc2
      else pickLoop rest cap (title :: seen) acc2

/-- The sort key `lambda s: s.get("published_date", "")`. -/
def newsDateKey (s : Story) : String := orBlank s.published_date

/-- Python string `≤`: lexicographic comparison by code point, made
structurally recursive so the kernel can evaluate it. -/
def charListLe : List Char → List Char → Bool
  | [], _ => true
  | _ :: _, [] => false
  | a :: as, b :: bs =>
    if a.toNat < b.toNat then true
    else if b.toNat < a.toNat then false
    else charListLe as bs

/-- Insert one story (earlier in the original order than everything already
inserted) into a descending-by-date list, keeping earlier stories first on
equal keys. -/
def insertByDateDesc (s : Story) : List Story → List Story
  | [] => [s]
  | t :: ts =>
    if charListLe (newsDateKey t).data (newsDateKey s).data then s :: t :: ts
    else t :: insertByDateDesc s ts

/-- `global_candidates.sort(key=lambda s: s.get("published_date", ""),
reverse=True)`: Python's stable descending sort by the date key.  A stable
sort is unique as a function of its input, so this stable insertion sort
computes the same list `list.sort` does. -/
def sortByDateDesc : List Story → List Story
  | [] => []
  | s :: rest => insertByDateDesc s (sortByDateDesc rest)

/-- The single fallback item of the missing-NYT-key early return. -/
def keyMissingItem : NewsItem :=
  ⟨"first", "(NYT API key missing)", "Add NYT_API_KEY in your .env file to enable news."⟩

/-- The single fallback item of the `except Exception` handler of
`get_top_news`, carrying the exception text. -/
def newsErrorItem (e : String) : NewsItem :=
  ⟨"first", "News unavailable", "Error fetching NYT news: " ++ e⟩

/-- The fallback item substituted when the global/political list ends empty. -/
def noGlobalItem : NewsItem :=
  ⟨"first", "No global or political stories available.",
    "The New York Times API did not return any global or political stories at this time."⟩

/-- The fallback item substituted when the technology list ends empty. -/
def noTechItem : NewsItem :=
  ⟨"first", "No technology stories available.",
    "The New York Times API did not return any technology stories at this time."⟩

/-- The dict `get_top_news` returns. -/
structure NewsDict where
  global_politics : List NewsItem
  technology : List NewsItem
deriving DecidableEq

/-- The `try` body of `get_top_news` once the three section responses are in
hand: truncate each fetched section (`[:max_items]` with 8, 8 and 10), sort
the combined global candidates by published date descending, run the
selection loop with caps 3 and 4, and substitute the labeled fallback item
for a category that ended empty. -/
def processNews (world politics tech : List Story) : NewsDict :=
  let globalCandidates := sortByDateDesc (world.take 8 ++ politics.take 8)
  let gp := pickLoop globalCandidates 3 [] []
  let te := pickLoop (tech.take 10) 4 [] []
  ⟨if gp = [] then [noGlobalItem] else gp, if te = [] then [noTechItem] else te⟩

/-- The outside world as `get_top_news` sees it: the configured `NYT_API_KEY`
(absent or a string) and the provider's answer to each of the three section
requests the code issues, in request order (`world`, `politics`,
`technology`). -/
structure NewsEnv where
  nytKey : Option String
  worldResp : Except String (List Story)
  politicsResp : Except String (List Story)
  techResp : Except String (List Story)

/-- Python falsiness of an optional string (`if not NYT_KEY`): unset or
empty. -/
def keyFalsy : Option String → Bool
  | none => true
  | some s => s == ""

/-- The dict returned by the missing-key early exit of `get_top_news`. -/
def keyMissingDict : NewsDict := ⟨[keyMissingItem], [keyMissingItem]⟩

/-- The dict returned by the `except Exception` handler of `get_top_news`. -/
def newsErrorDict (e : String) : NewsDict := ⟨[newsErrorItem e], [newsErrorItem e]⟩

/-- `get_top_news(limit=None)`.  The `limit` parameter is accepted and
ignored, as in the source.  The body catches every exception, so the
embedding is total: a failing section request lands in the handler's
fallback dict.  A request error of an earlier section prevents the later
requests, hence the nested matches in request order. -/
def get_top_news (env : NewsEnv) (limit : Option Nat) : NewsDict :=
  if keyFalsy env.nytKey then keyMissingDict
  else
    match env.worldResp with
    | .error e => newsErrorDict e
    | .ok world =>
      match env.politicsResp with
      | .error e => newsErrorDict e
      | .ok politics =>
        match env.techResp with
        | .error e => newsErrorDict e
        | .ok tech => processNews world politics tech

/-- The fields of the weather JSON body that `get_weather_summary` reads:
the `description` of each entry of the `weather` array, and the three
temperatures under `main`. -/
structure WeatherData where
  weather : List String
  temp : ℚ
  temp_max : ℚ
  temp_min : ℚ
deriving DecidableEq

/-- The outside world as `get_weather_summary` sees it: the configured
`WEATHER_API_KEY`, `HOME_LAT` and `HOME_LON` (each absent or a string), and
the provider's answer to the one request the code issues. -/
structure WeatherEnv where
  weatherKey : Option String
  lat : Option String
  lon : Option String
  resp : Except String WeatherData

/-- The fixed fallback string of the missing-weather-key early return. -/
def weatherKeyMissingMsg : String :=
  "(Weather API key missing – add WEATHER_API_KEY in .env)"

/-- `get_weather_summary()`.  Only the missing-key case is caught; a request
error (`raise_for_status`, transport failure, malformed payload) propagates,
as does the `IndexError` of `data["weather"][0]` on an empty `weather`
array. -/
def get_weather_summary (env : WeatherEnv) : Except String String :=
  if keyFalsy env.weatherKey then .ok weatherKeyMissingMsg
  else
    match env.resp with
    | .error e => .error e
    | .ok d =>
      match d.weather with
      | [] => .error "IndexError: list index out of range"
      | desc :: _ =>
        .ok (desc ++ ", currently " ++ toString (pyRound d.temp) ++
          "°F with a high of " ++ toString (pyRound d.temp_max) ++
          " and low of " ++ toString (pyRound d.temp_min))

/-- The hard-coded base URL of the weather request, query string included. -/
def weatherBaseUrl : String :=
  "https://api.openweathermap.org/data/2.5/weather?lat=37.7749&lon=-122.4194&appid=cf2ec116811073a689499aec6848f2b5"

/-- The characters after the first occurrence of `c`, if any. -/
def afterChar (c : Char) : List Char → Option (List Char)
  | [] => none
  | x :: xs => if x = c then some xs else afterChar c xs

/-- Split a character list at every occurrence of `c`. -/
def splitOnChar (c : Char) : List Char → List (List Char)
  | [] => [[]]
  | x :: xs =>
    if x = c then [] :: splitOnChar c xs
    else
      match splitOnChar c xs with
      | [] => [[x]]
      | g :: gs => (x :: g) :: gs

/-- Rejoin character chunks with `c` (the part of a query value after a
second `=`). -/
def joinChar (c : Char) : List (List Char) → List Char
  | [] => []
  | [g] => g
  | g :: gs => g ++ c :: joinChar c gs

/-- The key/value pairs of the query string of a URL: everything after the
first `?`, split at `&`, each chunk split at its first `=`. -/
def parseQuery (url : String) : List (String × String) :=
  match afterChar '?' url.data with
  | none => []
  | some q =>
    (splitOnChar '&' q).map fun kv =>
      match splitOnChar '=' kv with
      | [] => ("", "")
      | [k] => (String.mk k, "")
      | k :: v => (String.mk k, String.mk (joinChar '=' v))

/-- The `params` dict `get_weather_summary` passes to `requests.get`, as the
key/value pairs `requests` url-encodes: a `None` value (unset `HOME_LAT`,
`HOME_LON` or `WEATHER_API_KEY`) is dropped, `units` is always sent. -/
def weatherParams (env : WeatherEnv) : List (String × String) :=
  (match env.lat with | some v => [("lat", v)] | none => []) ++
  (match env.lon with | some v => [("lon", v)] | none => []) ++
  (match env.weatherKey with | some v => [("appid", v)] | none => []) ++
  [("units", "imperial")]

/-- The query parameters the issued weather request carries: `requests`
keeps the query already present in the URL and appends the encoded `params`
after it. -/
def weatherEffectiveQuery (env : WeatherEnv) : List (String × String) :=
  parseQuery weatherBaseUrl ++ weatherParams env

/-- One event of the calendar response, restricted to the fields the code
reads: `start.dateTime`, `start.date` and `summary` (the title). -/
structure CalEvent where
  start_dateTime : Option String
  start_date : Option String
  summary : Option String
deriving DecidableEq

/-- The decimal value of a digit character, `none` otherwise. -/
def digitVal (c : Char) : Option Nat :=
  if c.isDigit then some (c.toNat - 48) else none

/-- Two leading digits as a number, with the rest. -/
def parse2 : List Char → Option (Nat × List Char)
  | a :: b :: rest =>
    match digitVal a, digitVal b with
    | some x, some y => some (10 * x + y, rest)
    | _, _ => none
  | _ => none

/-- Four leading digits as a number, with the rest. -/
def parse4 : List Char → Option (Nat × List Char)
  | a :: b :: c :: d :: rest =>
    match digitVal a, digitVal b, digitVal c, digitVal d with
    | some w, some x, some y, some z => some (1000 * w + 100 * x + 10 * y + z, rest)
    | _, _, _, _ => none
  | _ => none

/-- Days in a month of the proleptic Gregorian calendar (for the date
validation `datetime.fromisoformat` performs). -/
def daysInMonth (y m : Nat) : Nat :=
  if m = 2 then
    if y % 4 = 0 ∧ (y % 100 ≠ 0 ∨ y % 400 = 0) then 29 else 28
  else if m = 4 ∨ m = 6 ∨ m = 9 ∨ m = 11 then 30
  else 31

/-- One to six fraction digits after `.` or `,`, with the rest; `none` when
`l` does not start with a fraction. -/
def parseFraction : List Char → Option (List Char)
  | c :: rest =>
    if c = '.' ∨ c = ',' then
      let digits := rest.takeWhile Char.isDigit
      if 1 ≤ digits.length ∧ digits.length ≤ 6 then some (rest.drop digits.length)
      else none
    else none
  | _ => none

/-- A UTC-offset suffix `±HH:MM[:SS]` as `fromisoformat` accepts it (the
code has already replaced a trailing `Z` by `+00:00`). -/
def validOffset : List Char → Bool
  | [] => true
  | c :: rest =>
    if c = '+' ∨ c = '-' then
      match parse2 rest with
      | some (oh, ':' :: r2) =>
        if 23 < oh then false
        else
          match parse2 r2 with
          | some (om, r3) =>
            if 59 < om then false
            else
              match r3 with
              | [] => true
              | ':' :: r4 =>
                match parse2 r4 with
                | some (os, []) => os ≤ 59
                | _ => false
              | _ => false
          | none => false
      | _ => false
    else false

/-- The tail of the time part after `HH:MM`: nothing, or `:SS` with an
optional fraction, each followed by an optional UTC offset. -/
def validTimeTail (l : List Char) : Bool :=
  match l with
  | [] => true
  | ':' :: r =>
    (match parse2 r with
     | some (s, r2) =>
       if 59 < s then false
       else
         match parseFraction r2 with
         | some r3 => validOffset r3
         | none => validOffset r2
     | none => false)
  | _ => validOffset l

/-- Models `datetime.fromisoformat` on the strings the code feeds it,
returning the hour and minute (all the `strftime("%I:%M %p")` display
needs): a valid `YYYY-MM-DD` date alone is midnight; otherwise any single
separator character is followed by `HH[:MM[:SS[.ffffff]]]` and an optional
`±HH:MM[:SS]` offset.  `none` embeds the `ValueError` the code catches. -/
def pyFromIsoHM (l : List Char) : Option (Nat × Nat) :=
  match parse4 l with
  | some (y, '-' :: r1) =>
    (match parse2 r1 with
     | some (m, '-' :: r2) =>
       (match parse2 r2 with
        | some (d, r3) =>
          if 1 ≤ m ∧ m ≤ 12 ∧ 1 ≤ d ∧ d ≤ daysInMonth y m then
            match r3 with
            | [] => some (0, 0)
            | _ :: r4 =>
              match parse2 r4 with
              | some (h, r5) =>
                if 23 < h then none
                else
                  match r5 with
                  | [] => some (h, 0)
                  | ':' :: r6 =>
                    (match parse2 r6 with
                     | some (mi, r7) =>
                       if 59 < mi then none
                       else if validTimeTail r7 then some (h, mi) else none
                     | none => none)
                  | _ => if validOffset r5 then some (h, 0) else none
              | none => none
          else none
        | none => none)
     | _ => none)
  | _ => none

/-- Zero-padded two-digit rendering (`%I` and `%M`). -/
def pad2 (n : Nat) : String :=
  if n < 10 then "0" ++ toString n else toString n

/-- `dt.strftime("%I:%M %p").lstrip("0")`: 12-hour clock with AM/PM, then
every leading `0` stripped. -/
def fmtClock (h m : Nat) : String :=
  let h12 := if h % 12 = 0 then 12 else h % 12
  let ampm := if h < 12 then "AM" else "PM"
  String.mk ((pad2 h12 ++ ":" ++ pad2 m ++ " " ++ ampm).data.dropWhile (fun c => c = '0'))

/-- The displayed start time of one event: parse the raw start (with `Z`
replaced by `+00:00`) and format the clock time; on a parse failure the
`except` branch displays the raw string unchanged. -/
def formatStart (raw : String) : String :=
  match pyFromIsoHM (raw.replace "Z" "+00:00").data with
  | some (h, m) => fmtClock h m
  | none => raw

/-- `e["start"].get("dateTime", e["start"].get("date"))`. -/
def startRaw (e : CalEvent) : Option String :=
  match e.start_dateTime with
  | some v => some v
  | none => e.start_date

/-- The `f"{start_str}: {title}"` line of one event.  When both start fields
are absent, the `except` branch keeps `start_raw = None` and the f-string
renders it as `"None"`. -/
def eventLine (e : CalEvent) : String :=
  (match startRaw e with
   | some raw => formatStart raw
   | none => "None") ++ ": " ++ e.summary.getD "(no title)"

/-- The arguments `get_today_calendar_events` passes to
`service.events().list(...)`.  `timeMinSecs`/`timeMaxSecs` are the instants
(seconds) the code serializes to ISO strings with a trailing `Z`. -/
structure CalendarRequest where
  calendarId : String
  timeMinSecs : Nat
  timeMaxSecs : Nat
  singleEvents : Bool
  orderBy : String
deriving DecidableEq

/-- The calendar list request built from `now = datetime.utcnow()`:
`timeMax = now + timedelta(days=1)`, i.e. exactly 24 hours (86400 seconds)
after `timeMin`. -/
def calendarRequest (now : Nat) : CalendarRequest :=
  ⟨"primary", now, now + 86400, true, "startTime"⟩

/-- The outside world as `get_today_calendar_events` sees it: the current
instant and the provider's `items` array for the one list request, or the
exception (credential failure or HTTP error) that propagates. -/
structure CalendarEnv where
  now : Nat
  resp : Except String (List CalEvent)

/-- `get_today_calendar_events()`: nothing is caught around the credential
lookup and the request; on success, one formatted line per returned event,
in the provider's order. -/
def get_today_calendar_events (env : CalendarEnv) : Except String (List String) :=
  match env.resp with
  | .error e => .error e
  | .ok events => .ok (events.map eventLine)

/-- One Gmail message as the per-message metadata `get` returns it: the
`payload.headers` array of name/value pairs. -/
structure MailMsg where
  headers : List (String × String)
deriving DecidableEq

/-- `headers = {h["name"]: h["value"] for h in ...}` followed by
`headers.get(k)`: a dict comprehension keeps the last pair with a given
name. -/
def headerLookup (hs : List (String × String)) (k : String) : Option String :=
  hs.reverse.lookup k

/-- The `f"{subject} from {sender}"` line of one message, with the absent
header fallbacks. -/
def msgLine (m : MailMsg) : String :=
  (headerLookup m.headers "Subject").getD "(no subject)" ++ " from " ++
    (headerLookup m.headers "From").getD "(unknown sender)"

/-- The fixed Gmail search query of `get_recent_package_emails`. -/
def mailQuery : String :=
  "newer_than:7d (\"your order has shipped\" OR \"out for delivery\" OR \"order update\")"

/-- The arguments `get_recent_package_emails` passes to
`service.users().messages().list(...)`. -/
structure MailRequest where
  userId : String
  q : String
  maxResults : Nat
deriving DecidableEq

/-- The one list request the code issues. -/
def mailListRequest : MailRequest := ⟨"me", mailQuery, 10⟩

/-- The outside world as `get_recent_package_emails` sees it: the matched
messages with their headers (the list request and the per-message metadata
requests combined), or the exception (credential failure or HTTP error of
any of those requests) that propagates. -/
structure MailEnv where
  resp : Except String (List MailMsg)

/-- `get_recent_package_emails()`: nothing is caught; on success the early
`return []` when nothing matched, otherwise one line per matched message in
the provider's order. -/
def get_recent_package_emails (env : MailEnv) : Except String (List String) :=
  match env.resp with
  | .error e => .error e
  | .ok msgs => if msgs = [] then .ok [] else .ok (msgs.map msgLine)

/-- A pickled Google credential object, reduced to the three Boolean
attributes `get_credentials` inspects (`valid`, `expired`, and the
truthiness of `refresh_token`). -/
structure GoogleCreds where
  valid : Bool
  expired : Bool
  refresh_token : Bool
deriving DecidableEq

/-- The outside world as `get_credentials` sees it: the token file's
contents if the file exists, the credentials a successful `creds.refresh`
yields, and the credentials the interactive `run_local_server` flow
yields. -/
structure OAuthEnv where
  fileCreds : Option GoogleCreds
  refreshed : GoogleCreds
  fromFlow : GoogleCreds
deriving DecidableEq

/-- What one call of `get_credentials` does: the credentials returned, the
token file's contents afterwards, whether the interactive browser flow ran,
and whether the token file was written. -/
structure CredOutcome where
  creds : GoogleCreds
  fileAfter : Option GoogleCreds
  ranFlow : Bool
  wrote : Bool
deriving DecidableEq

/-- `get_credentials(scopes, token_filename)`: load the pickled credentials
when the file exists; when they are missing or not valid, refresh if they
are expired with a refresh token, otherwise run the interactive flow, and in
either case write the result back to the file. -/
def get_credentials (env : OAuthEnv) : CredOutcome :=
  match env.fileCreds with
  | none => ⟨env.fromFlow, some env.fromFlow, true, true⟩
  | some c =>
    if c.valid then ⟨c, some c, false, false⟩
    else if c.expired && c.refresh_token then ⟨env.refreshed, some env.refreshed, false, true⟩
    else ⟨env.fromFlow, some env.fromFlow, true, true⟩

/-- The lines `build_morning_summary` appends for one global/political item:
the title sentence when the stripped title is non-blank, then the stripped
summary when non-blank (ordinal falling back to `"first"`). -/
def globalItemParts (it : NewsItem) : List String :=
  let ordinal := if it.ordinal.trim = "" then "first" else it.ordinal.trim
  (if it.title.trim = "" then []
   else ["The " ++ ordinal ++ " global update is: " ++ it.title.trim ++ "."]) ++
  (if it.summary.trim = "" then [] else [it.summary.trim])

/-- The lines `build_morning_summary` appends for one technology item. -/
def techItemParts (it : NewsItem) : List String :=
  let ordinal := if it.ordinal.trim = "" then "first" else it.ordinal.trim
  (if it.title.trim = "" then []
   else ["The " ++ ordinal ++ " tech trend is: " ++ it.title.trim ++ "."]) ++
  (if it.summary.trim = "" then [] else [it.summary.trim])

/-- The `parts` list `build_morning_summary` builds, in source order:
greeting, weather line, the trending-stories header when either news list is
non-empty, the global block, the tech block, the calendar block (fallback
sentence when no events), and the package block (fallback sentence when no
packages). -/
def composeParts (todayStr weather : String) (gp te : List NewsItem)
    (events packages : List String) : List String :=
  ("Alrighty, here’s your rundown for " ++ todayStr ++ ".") ::
  ("\nWeather: " ++ weather ++ ".") ::
  ((if gp = [] ∧ te = [] then [] else ["\nHere are today\x27s trending stories:"]) ++
   (if gp = [] then []
    else "\nFirst, let’s ramp you up on the global and political updates." ::
      (gp.map globalItemParts).flatten) ++
   (if te = [] then []
    else "\nNow, here\x27s the latest within the tech industry." ::
      (te.map techItemParts).flatten) ++
   (if events = [] then ["\nLooks like we have no events noted in the calendar today!"]
    else "\nYour key events today:" :: events.map (fun e => "• " ++ e)) ++
   (if packages = [] then
      ["\nYou don\x27t have any delivery updates you need to worry about right now."]
    else "\nRecent package updates:" :: packages.map (fun p => "• " ++ p)))

/-- The skeleton the composition claim asserts: in this fixed order, the
dated greeting, the weather line, the news headers (each present exactly
when its list is non-empty), then one line for the calendar section (its
header, or the fixed fallback sentence when no events) and one line for the
package section likewise. -/
def sectionSkeleton (todayStr weather : String) (gp te : List NewsItem)
    (events packages : List String) : List String :=
  ("Alrighty, here’s your rundown for " ++ todayStr ++ ".") ::
  ("\nWeather: " ++ weather ++ ".") ::
  ((if gp = [] ∧ te = [] then [] else ["\nHere are today\x27s trending stories:"]) ++
   (if gp = [] then []
    else ["\nFirst, let’s ramp you up on the global and political updates."]) ++
   (if te = [] then [] else ["\nNow, here\x27s the latest within the tech industry."]) ++
   [if events = [] then "\nLooks like we have no events noted in the calendar today!"
    else "\nYour key events today:"] ++
   [if packages = [] then
      "\nYou don\x27t have any delivery updates you need to worry about right now."
    else "\nRecent package updates:"])

/-- The outside world of one `build_morning_summary` call: the formatted
date `datetime.now().strftime("%A, %B %d")` and the four fetchers'
environments. -/
structure BriefingEnv where
  todayStr : String
  news : NewsEnv
  weather : WeatherEnv
  calendar : CalendarEnv
  mail : MailEnv

/-- `build_morning_summary()`: the four fetchers run in source order
(weather, news, calendar, mail) with no exception handling, so the first
fetcher that raises aborts the composition; on success the parts are joined
with newlines.  `(news or {}).get(...)` always sees the dict `get_top_news`
returned. -/
def build_morning_summary (env : BriefingEnv) : Except String String :=
  match get_weather_summary env.weather with
  | .error e => .error e
  | .ok weather =>
    let news := get_top_news env.news none
    match get_today_calendar_events env.calendar with
    | .error e => .error e
    | .ok events =>
      match get_recent_package_emails env.mail with
      | .error e => .error e
      | .ok packages =>
        .ok (String.intercalate "\n"
          (composeParts env.todayStr weather news.global_politics news.technology
            events packages))

/-- A placeholder response for a request the modelled run never issues. -/
def unusedResp : Except String (List Story) := .error "unused"

/-- A news environment with no `NYT_API_KEY` configured. -/
def nEnvNoKey : NewsEnv := ⟨none, unusedResp, unusedResp, unusedResp⟩

/-- A weather environment: key configured, successful response. -/
def wEnvOk : WeatherEnv :=
  ⟨some "k", some "37.0", some "-122.0", .ok ⟨["clear sky"], 68, 71, 55⟩⟩

/-- A weather environment: key configured, request fails with an HTTP
error. -/
def wEnvHttpError : WeatherEnv :=
  ⟨some "k", none, none, .error "HTTPError: 401 Client Error: Unauthorized"⟩

/-- A weather environment with no `WEATHER_API_KEY` configured. -/
def wEnvNoKey : WeatherEnv := ⟨none, none, none, .error "unused"⟩

/-- A calendar environment with no events in the next 24 hours. -/
def cEnvEmpty : CalendarEnv := ⟨1760252400, .ok []⟩

/-- A calendar environment with one timed event. -/
def cEnvOne : CalendarEnv :=
  ⟨1760252400, .ok [⟨some "2026-10-12T09:30:00Z", none, some "Standup"⟩]⟩

/-- A mail environment with no matching messages. -/
def mEnvEmpty : MailEnv := ⟨.ok []⟩

/-- A mail environment with one matched message. -/
def mEnvOne : MailEnv :=
  ⟨.ok [⟨[("Subject", "Your order has shipped"), ("From", "Shop <shop@example.com>")]⟩]⟩

/-- A full environment in which the weather request fails: one concrete
combination of fetcher outcomes. -/
def envWeatherFails : BriefingEnv :=
  ⟨"Monday, October 12", nEnvNoKey, wEnvHttpError, cEnvEmpty, mEnvEmpty⟩

/-- A full environment in which every request the run issues succeeds (news
key absent, weather key absent, empty calendar and mail). -/
def envAllOk : BriefingEnv :=
  ⟨"Monday, October 12", nEnvNoKey, wEnvNoKey, cEnvEmpty, mEnvEmpty⟩

/-- Every item the selection loop emits has a non-blank title: a story with
a blank stripped title is skipped. -/
theorem pickLoop_titles_ne (ss : List Story) :
    ∀ (cap : Nat) (seen : List String) (acc : List NewsItem),
      (∀ it ∈ acc, it.title ≠ "") → ∀ it ∈ pickLoop ss cap seen acc, it.title ≠ "" := by
  induction ss with
  | nil =>
    intro cap seen acc h it hit
    exact h it (by simpa [pickLoop] using hit)
  | cons s rest ih =>
    intro cap seen acc h it hit
    simp only [pickLoop] at hit
    split at hit
    · exact ih cap seen acc h it hit
    · next hcond =>
      have htne : (orBlank s.title).trim ≠ "" := fun he => hcond (Or.inl he)
      have hstep : ∀ x ∈ acc ++ [(⟨ordinalWord acc.length, (orBlank s.title).trim,
          buildRichSummary s⟩ : NewsItem)], x.title ≠ "" := by
        intro x hx
        rcases List.mem_append.mp hx with hx1 | hx1
        · exact h x hx1
        · simp only [List.mem_singleton] at hx1
          subst hx1
          exact htne
      split at hit
      · exact hstep it hit
      · exact ih cap _ _ hstep it hit

/-- The selection loop never grows past its cap: the `break` fires as soon
as the cap is reached. -/
theorem pickLoop_length_le (ss : List Story) :
    ∀ (cap : Nat) (seen : List String) (acc : List NewsItem),
      acc.length < cap → (pickLoop ss cap seen acc).length ≤ cap := by
  induction ss with
  | nil =>
    intro cap seen acc h
    simpa [pickLoop] using Nat.le_of_lt h
  | cons s rest ih =>
    intro cap seen acc h
    simp only [pickLoop]
    split
    · exact ih cap seen acc h
    · split
      · simpa using h
      · next hlen =>
        exact ih cap _ _ (Nat.lt_of_not_le hlen)

/-- The titles the selection loop emits are pairwise distinct: every emitted
title is recorded in `seen` and a seen title is skipped. -/
theorem pickLoop_titles_nodup (ss : List Story) :
    ∀ (cap : Nat) (seen : List String) (acc : List NewsItem),
      (acc.map NewsItem.title).Nodup → (∀ t ∈ acc.map NewsItem.title, t ∈ seen) →
      ((pickLoop ss cap seen acc).map NewsItem.title).Nodup := by
  induction ss with
  | nil =>
    intro cap seen acc h _
    simpa [pickLoop] using h
  | cons s rest ih =>
    intro cap seen acc h hseen
    simp only [pickLoop]
    split
    · exact ih cap seen acc h hseen
    · next hcond =>
      have hnotseen : (orBlank s.title).trim ∉ seen := fun hm => hcond (Or.inr hm)
      have hnotacc : (orBlank s.title).trim ∉ acc.map NewsItem.title :=
        fun hm => hnotseen (hseen _ hm)
      have hnodup2 : ((acc ++ [(⟨ordinalWord acc.length, (orBlank s.title).trim,
          buildRichSummary s⟩ : NewsItem)]).map NewsItem.title).Nodup := by
        rw [List.map_append]
        refine List.Nodup.append h (List.nodup_singleton _) ?_
        intro a ha hb
        rw [List.map_singleton, List.mem_singleton] at hb
        subst hb
        exact hnotacc ha
      split
      · exact hnodup2
      · refine ih cap _ _ hnodup2 ?_
        intro t ht
        simp only [List.map_append, List.map_cons, List.map_nil,
          List.mem_append, List.mem_singleton] at ht
        rcases ht with ht | ht
        · exact List.mem_cons_of_mem _ (hseen t ht)
        · subst ht
          exact List.mem_cons_self _ _

/-- The two lists `processNews` builds satisfy the claimed bounds, and a
category that ended empty is replaced by its single labeled fallback. -/
theorem processNews_props (world politics tech : List Story) :
    (∀ it ∈ (processNews world politics tech).global_politics, it.title ≠ "") ∧
    ((processNews world politics tech).global_politics.map NewsItem.title).Nodup ∧
    (processNews world politics tech).global_politics.length ≤ 3 ∧
    (processNews world politics tech).global_politics ≠ [] ∧
    (∀ it ∈ (processNews world politics tech).technology, it.title ≠ "") ∧
    ((processNews world politics tech).technology.map NewsItem.title).Nodup ∧
    (processNews world politics tech).technology.length ≤ 4 ∧
    (processNews world politics tech).technology ≠ [] := by
  have hgpeq : (processNews world politics tech).global_politics =
      if pickLoop (sortByDateDesc (world.take 8 ++ politics.take 8)) 3 [] [] = []
      then [noGlobalItem]
      else pickLoop (sortByDateDesc (world.take 8 ++ politics.take 8)) 3 [] [] := rfl
  have hteeq : (processNews world politics tech).technology =
      if pickLoop (tech.take 10) 4 [] [] = [] then [noTechItem]
      else pickLoop (tech.take 10) 4 [] [] := rfl
  rw [hgpeq, hteeq]
  by_cases hg : pickLoop (sortByDateDesc (world.take 8 ++ politics.take 8)) 3 [] [] = []
  · by_cases ht : pickLoop (tech.take 10) 4 [] [] = []
    · rw [if_pos hg, if_pos ht]
      decide
    · rw [if_pos hg, if_neg ht]
      exact ⟨by decide, by decide, by decide, by decide,
        pickLoop_titles_ne _ 4 [] [] (by simp),
        pickLoop_titles_nodup _ 4 [] [] (by simp) (by simp),
        pickLoop_length_le _ 4 [] [] (by norm_num), ht⟩
  · by_cases ht : pickLoop (tech.take 10) 4 [] [] = []
    · rw [if_neg hg, if_pos ht]
      exact ⟨pickLoop_titles_ne _ 3 [] [] (by simp),
        pickLoop_titles_nodup _ 3 [] [] (by simp) (by simp),
        pickLoop_length_le _ 3 [] [] (by norm_num), hg,
        by decide, by decide, by decide, by decide⟩
    · rw [if_neg hg, if_neg ht]
      exact ⟨pickLoop_titles_ne _ 3 [] [] (by simp),
        pickLoop_titles_nodup _ 3 [] [] (by simp) (by simp),
        pickLoop_length_le _ 3 [] [] (by norm_num), hg,
        pickLoop_titles_ne _ 4 [] [] (by simp),
        pickLoop_titles_nodup _ 4 [] [] (by simp) (by simp),
        pickLoop_length_le _ 4 [] [] (by norm_num), ht⟩

/-- `get_top_news` returns one of three dicts: the missing-key fallback, the
exception-handler fallback, or the processed sections. -/
theorem get_top_news_cases (env : NewsEnv) (limit : Option Nat) :
    get_top_news env limit = keyMissingDict ∨
    (∃ e, get_top_news env limit = newsErrorDict e) ∨
    (∃ world politics tech,
      get_top_news env limit = processNews world politics tech) := by
  unfold get_top_news
  split
  · exact Or.inl rfl
  · split
    · exact Or.inr (Or.inl ⟨_, rfl⟩)
    · split
      · exact Or.inr (Or.inl ⟨_, rfl⟩)
      · split
        · exact Or.inr (Or.inl ⟨_, rfl⟩)
        · exact Or.inr (Or.inr ⟨_, _, _, rfl⟩)

/-- The claimed bounds hold of each of the three dict shapes. -/
theorem newsDict_shape (d : NewsDict)
    (hd : d = keyMissingDict ∨ (∃ e, d = newsErrorDict e) ∨
      ∃ world politics tech, d = processNews world politics tech) :
    (∀ it ∈ d.global_politics, it.title ≠ "") ∧
    (d.global_politics.map NewsItem.title).Nodup ∧
    d.global_politics.length ≤ 3 ∧
    d.global_politics ≠ [] ∧
    (∀ it ∈ d.technology, it.title ≠ "") ∧
    (d.technology.map NewsItem.title).Nodup ∧
    d.technology.length ≤ 4 ∧
    d.technology ≠ [] := by
  rcases hd with hd | ⟨e, hd⟩ | ⟨world, politics, tech, hd⟩
  · subst hd
    decide
  · subst hd
    have htitle : ∀ it ∈ (newsErrorDict e).global_politics, it.title ≠ "" := by
      intro it hit
      simp only [newsErrorDict, List.mem_singleton] at hit
      subst hit
      have h1 : (newsErrorItem e).title = "News unavailable" := rfl
      rw [h1]
      decide
    exact ⟨htitle, by simp [newsErrorDict], by simp [newsErrorDict],
      by simp [newsErrorDict], htitle, by simp [newsErrorDict], by simp [newsErrorDict],
      by simp [newsErrorDict]⟩
  · subst hd
    exact processNews_props world politics tech

/-- Claim C3: for every provider response, each category of the dict
`get_top_news` returns holds only items with a non-blank title, its titles
are pairwise distinct, `global_politics` has at most 3 items and
`technology` at most 4, and a category that would have ended empty is
replaced by a single labeled fallback item (so neither list is ever
empty). -/
theorem get_top_news_filters_dedupes_truncates (env : NewsEnv) (limit : Option Nat) :
    ((∀ it ∈ (get_top_news env limit).global_politics, it.title ≠ "") ∧
     ((get_top_news env limit).global_politics.map NewsItem.title).Nodup ∧
     (get_top_news env limit).global_politics.length ≤ 3 ∧
     (get_top_news env limit).global_politics ≠ [] ∧
     (∀ it ∈ (get_top_news env limit).technology, it.title ≠ "") ∧
     ((get_top_news env limit).technology.map NewsItem.title).Nodup ∧
     (get_top_news env limit).technology.length ≤ 4 ∧
     (get_top_news env limit).technology ≠ []) ∧
    (∀ world politics tech : List Story,
      pickLoop (sortByDateDesc (world.take 8 ++ politics.take 8)) 3 [] [] = [] →
        (processNews world politics tech).global_politics = [noGlobalItem]) ∧
    (∀ world politics tech : List Story,
      pickLoop (tech.take 10) 4 [] [] = [] →
        (processNews world politics tech).technology = [noTechItem]) := by
  refine ⟨newsDict_shape _ (get_top_news_cases env limit), ?_, ?_⟩
  · intro world politics tech h
    have hgpeq : (processNews world politics tech).global_politics =
        if pickLoop (sortByDateDesc (world.take 8 ++ politics.take 8)) 3 [] [] = []
        then [noGlobalItem]
        else pickLoop (sortByDateDesc (world.take 8 ++ politics.take 8)) 3 [] [] := rfl
    rw [hgpeq, if_pos h]
  · intro world politics tech h
    have hteeq : (processNews world politics tech).technology =
        if pickLoop (tech.take 10) 4 [] [] = [] then [noTechItem]
        else pickLoop (tech.take 10) 4 [] [] := rfl
    rw [hteeq, if_pos h]

/-- Claim C10: the `limit` argument of `get_top_news` has no influence on
the result — for identical external responses, every call returns exactly
the dict the no-argument call returns. -/
theorem get_top_news_ignores_limit (env : NewsEnv) (limit : Option Nat) :
    get_top_news env limit = get_top_news env none := rfl

/-- Claim C4: `get_credentials` is a load / refresh-if-expired /
persist-after-refresh-or-initial-grant store: valid cached credentials are
returned without running the interactive flow and without writing the token
file; absent, invalid or expired credentials are replaced (refresh when
expired with a refresh token, interactive flow otherwise) and written to the
token file before returning. -/
theorem get_credentials_cache_behaviour (env : OAuthEnv) :
    (∀ c, env.fileCreds = some c → c.valid = true →
      get_credentials env = ⟨c, some c, false, false⟩) ∧
    (∀ c, env.fileCreds = some c → c.valid = false → c.expired = true →
      c.refresh_token = true →
      get_credentials env = ⟨env.refreshed, some env.refreshed, false, true⟩) ∧
    (∀ c, env.fileCreds = some c → c.valid = false →
      (c.expired = false ∨ c.refresh_token = false) →
      get_credentials env = ⟨env.fromFlow, some env.fromFlow, true, true⟩) ∧
    (env.fileCreds = none →
      get_credentials env = ⟨env.fromFlow, some env.fromFlow, true, true⟩) := by
  refine ⟨?_, ?_, ?_, ?_⟩
  · intro c hc hv
    simp [get_credentials, hc, hv]
  · intro c hc hv he hr
    simp [get_credentials, hc, hv, he, hr]
  · intro c hc hv hor
    rcases hor with h | h <;> simp [get_credentials, hc, hv, h]
  · intro hc
    simp [get_credentials, hc]

/-- Claim C6: on a successful weather response (key configured, non-empty
`weather` array), the summary string is exactly the first description with
the three temperatures rounded by Python's `round`. -/
theorem get_weather_summary_format (env : WeatherEnv) (d : WeatherData)
    (desc : String) (rest : List String)
    (hk : keyFalsy env.weatherKey = false)
    (hr : env.resp = .ok d)
    (hw : d.weather = desc :: rest) :
    get_weather_summary env =
      .ok (desc ++ ", currently " ++ toString (pyRound d.temp) ++
        "°F with a high of " ++ toString (pyRound d.temp_max) ++
        " and low of " ++ toString (pyRound d.temp_min)) := by
  simp [get_weather_summary, hk, hr, hw]

/-- Claim C6 witness: the format theorem applied at a concrete successful
response. -/
theorem get_weather_summary_format_witness :
    get_weather_summary wEnvOk =
      .ok ("clear sky" ++ ", currently " ++ toString (pyRound (68 : ℚ)) ++
        "°F with a high of " ++ toString (pyRound (71 : ℚ)) ++
        " and low of " ++ toString (pyRound (55 : ℚ))) :=
  get_weather_summary_format wEnvOk ⟨["clear sky"], 68, 71, 55⟩ "clear sky" [] rfl rfl rfl

/-- The query string hard-coded in the weather base URL parses to exactly
the three hard-coded parameters. -/
theorem parseQuery_weatherBaseUrl :
    parseQuery weatherBaseUrl =
      [("lat", "37.7749"), ("lon", "-122.4194"),
        ("appid", "cf2ec116811073a689499aec6848f2b5")] := rfl

/-- Claim C9: the issued weather request carries both the hard-coded
location/key parameters of the base URL and the environment-configured ones
appended by `requests`, regardless of the configured values. -/
theorem weather_request_carries_both (env : WeatherEnv) (la lo k : String)
    (hla : env.lat = some la) (hlo : env.lon = some lo)
    (hk : env.weatherKey = some k) :
    ("lat", "37.7749") ∈ weatherEffectiveQuery env ∧
    ("lon", "-122.4194") ∈ weatherEffectiveQuery env ∧
    ("appid", "cf2ec116811073a689499aec6848f2b5") ∈ weatherEffectiveQuery env ∧
    ("lat", la) ∈ weatherEffectiveQuery env ∧
    ("lon", lo) ∈ weatherEffectiveQuery env ∧
    ("appid", k) ∈ weatherEffectiveQuery env ∧
    ("units", "imperial") ∈ weatherEffectiveQuery env := by
  simp [weatherEffectiveQuery, weatherParams, hla, hlo, hk, parseQuery_weatherBaseUrl]

/-- Claim C9 witness: the request-parameter theorem applied at a concrete
environment. -/
theorem weather_request_carries_both_witness :
    ("lat", "37.7749") ∈ weatherEffectiveQuery wEnvOk ∧
    ("lon", "-122.4194") ∈ weatherEffectiveQuery wEnvOk ∧
    ("appid", "cf2ec116811073a689499aec6848f2b5") ∈ weatherEffectiveQuery wEnvOk ∧
    ("lat", "37.0") ∈ weatherEffectiveQuery wEnvOk ∧
    ("lon", "-122.0") ∈ weatherEffectiveQuery wEnvOk ∧
    ("appid", "k") ∈ weatherEffectiveQuery wEnvOk ∧
    ("units", "imperial") ∈ weatherEffectiveQuery wEnvOk :=
  weather_request_carries_both wEnvOk "37.0" "-122.0" "k" rfl rfl rfl

/-- Claim C7: the calendar list request targets the primary calendar with a
window from now to exactly 24 hours (86400 seconds) later, ordered by start
time, and on success the result is one `start: title` line per event in the
provider's order. -/
theorem calendar_window_and_lines (now : Nat) (env : CalendarEnv)
    (events : List CalEvent) (h : env.resp = .ok events) :
    calendarRequest now = ⟨"primary", now, now + 86400, true, "startTime"⟩ ∧
    (calendarRequest now).timeMaxSecs = (calendarRequest now).timeMinSecs + 86400 ∧
    get_today_calendar_events env =
      .ok (events.map (fun e =>
        (match startRaw e with
         | some raw => formatStart raw
         | none => "None") ++ ": " ++ e.summary.getD "(no title)")) := by
  refine ⟨rfl, rfl, ?_⟩
  have h1 : get_today_calendar_events env = .ok (events.map eventLine) := by
    simp [get_today_calendar_events, h]
  exact h1

/-- Claim C7 witness: the calendar theorem applied at a concrete
environment with one event. -/
theorem calendar_window_and_lines_witness :
    calendarRequest 1760252400 = ⟨"primary", 1760252400, 1760252400 + 86400, true, "startTime"⟩ ∧
    (calendarRequest 1760252400).timeMaxSecs = (calendarRequest 1760252400).timeMinSecs + 86400 ∧
    get_today_calendar_events cEnvOne =
      .ok ([(⟨some "2026-10-12T09:30:00Z", none, some "Standup"⟩ : CalEvent)].map (fun e =>
        (match startRaw e with
         | some raw => formatStart raw
         | none => "None") ++ ": " ++ e.summary.getD "(no title)")) :=
  calendar_window_and_lines 1760252400 cEnvOne
    [⟨some "2026-10-12T09:30:00Z", none, some "Standup"⟩] rfl

/-- Claim C8: the mail search uses the fixed shipping-keyword query over the
last 7 days with at most 10 results, and on success returns one
subject-from-sender line per matched message (with the absent-header
fallbacks), the empty list when nothing matched. -/
theorem mail_query_and_lines (env : MailEnv) (msgs : List MailMsg)
    (h : env.resp = .ok msgs) :
    mailListRequest = ⟨"me", mailQuery, 10⟩ ∧
    mailQuery =
      "newer_than:7d (\"your order has shipped\" OR \"out for delivery\" OR \"order update\")" ∧
    mailListRequest.maxResults = 10 ∧
    get_recent_package_emails env =
      .ok (msgs.map (fun m =>
        (headerLookup m.headers "Subject").getD "(no subject)" ++ " from " ++
          (headerLookup m.headers "From").getD "(unknown sender)")) ∧
    (msgs = [] → get_recent_package_emails env = .ok []) := by
  have h1 : get_recent_package_emails env = .ok (msgs.map msgLine) := by
    by_cases hm : msgs = []
    · subst hm
      simp [get_recent_package_emails, h]
    · simp [get_recent_package_emails, h, hm]
  refine ⟨rfl, rfl, rfl, h1, ?_⟩
  intro hm
  subst hm
  simp [get_recent_package_emails, h]

/-- Claim C8 witness: the mail theorem applied at a concrete environment
with one matched message. -/
theorem mail_query_and_lines_witness :
    mailListRequest = ⟨"me", mailQuery, 10⟩ ∧
    mailQuery =
      "newer_than:7d (\"your order has shipped\" OR \"out for delivery\" OR \"order update\")" ∧
    mailListRequest.maxResults = 10 ∧
    get_recent_package_emails mEnvOne =
      .ok ([(⟨[("Subject", "Your order has shipped"),
          ("From", "Shop <shop@example.com>")]⟩ : MailMsg)].map (fun m =>
        (headerLookup m.headers "Subject").getD "(no subject)" ++ " from " ++
          (headerLookup m.headers "From").getD "(unknown sender)")) ∧
    ([(⟨[("Subject", "Your order has shipped"),
        ("From", "Shop <shop@example.com>")]⟩ : MailMsg)] = ([] : List MailMsg) →
      get_recent_package_emails mEnvOne = .ok []) :=
  mail_query_and_lines mEnvOne
    [⟨[("Subject", "Your order has shipped"), ("From", "Shop <shop@example.com>")]⟩] rfl

/-- The claimed section skeleton is an in-order sublist of the parts list
`build_morning_summary` joins. -/
theorem sectionSkeleton_sublist (todayStr weather : String) (gp te : List NewsItem)
    (events packages : List String) :
    List.Sublist (sectionSkeleton todayStr weather gp te events packages)
      (composeParts todayStr weather gp te events packages) := by
  unfold sectionSkeleton composeParts
  refine List.Sublist.cons₂ _ (List.Sublist.cons₂ _ ?_)
  refine List.Sublist.append (List.Sublist.append (List.Sublist.append
    (List.Sublist.append (List.Sublist.refl _) ?_) ?_) ?_) ?_
  · by_cases hgp : gp = []
    · rw [if_pos hgp, if_pos hgp]
    · rw [if_neg hgp, if_neg hgp]
      exact List.Sublist.cons₂ _ (List.nil_sublist _)
  · by_cases hte : te = []
    · rw [if_pos hte, if_pos hte]
    · rw [if_neg hte, if_neg hte]
      exact List.Sublist.cons₂ _ (List.nil_sublist _)
  · by_cases he : events = []
    · rw [if_pos he, if_pos he]
    · rw [if_neg he, if_neg he]
      exact List.Sublist.cons₂ _ (List.nil_sublist _)
  · by_cases hp : packages = []
    · rw [if_pos hp, if_pos hp]
    · rw [if_neg hp, if_neg hp]
      exact List.Sublist.cons₂ _ (List.nil_sublist _)

/-- Claim C5: when the three fallible fetchers succeed, the returned string
is the newline-join of the composed parts, and those parts contain, in this
fixed order: the dated greeting, the weather line, the news headers (each
present exactly when its list is non-empty), the calendar section (its
header, or the fixed fallback sentence when no events) and the package
section likewise. -/
theorem build_morning_summary_section_order (env : BriefingEnv)
    (w : String) (events packages : List String)
    (hw : get_weather_summary env.weather = .ok w)
    (hc : get_today_calendar_events env.calendar = .ok events)
    (hm : get_recent_package_emails env.mail = .ok packages) :
    build_morning_summary env =
      .ok (String.intercalate "\n"
        (composeParts env.todayStr w (get_top_news env.news none).global_politics
          (get_top_news env.news none).technology events packages)) ∧
    List.Sublist
      (sectionSkeleton env.todayStr w (get_top_news env.news none).global_politics
        (get_top_news env.news none).technology events packages)
      (composeParts env.todayStr w (get_top_news env.news none).global_politics
        (get_top_news env.news none).technology events packages) := by
  refine ⟨?_, sectionSkeleton_sublist _ _ _ _ _ _⟩
  simp [build_morning_summary, hw, hc, hm]

/-- Claim C5 witness: the section-order theorem applied at a concrete
environment (missing keys, empty calendar and mail). -/
theorem build_morning_summary_section_order_witness :
    build_morning_summary envAllOk =
      .ok (String.intercalate "\n"
        (composeParts envAllOk.todayStr weatherKeyMissingMsg
          (get_top_news envAllOk.news none).global_politics
          (get_top_news envAllOk.news none).technology [] [])) ∧
    List.Sublist
      (sectionSkeleton envAllOk.todayStr weatherKeyMissingMsg
        (get_top_news envAllOk.news none).global_politics
        (get_top_news envAllOk.news none).technology [] [])
      (composeParts envAllOk.todayStr weatherKeyMissingMsg
        (get_top_news envAllOk.news none).global_politics
        (get_top_news envAllOk.news none).technology [] []) :=
  build_morning_summary_section_order envAllOk weatherKeyMissingMsg [] [] rfl rfl rfl

/-- Claim C1 counterexample: at this concrete combination of fetcher
outcomes (weather key configured, weather request answers an HTTP error,
every other source benign) `build_morning_summary` does not return a
string — the weather fetcher's uncaught exception propagates out of the
composition. -/
theorem build_morning_summary_raises_cex :
    build_morning_summary envWeatherFails =
      .error "HTTPError: 401 Client Error: Unauthorized" := rfl

/-- Claim C1 (amended): `build_morning_summary` returns a string for every
outcome of the news fetcher (which catches its own failures) provided the
weather, calendar and mail requests succeed; a failure of any of those
three propagates an exception out of the composition. -/
theorem build_morning_summary_total_when_fetches_succeed (env : BriefingEnv)
    (w : String) (evs : List CalEvent) (ms : List MailMsg)
    (hw : get_weather_summary env.weather = .ok w)
    (hc : env.calendar.resp = .ok evs)
    (hm : env.mail.resp = .ok ms) :
    ∃ s, build_morning_summary env = .ok s := by
  have h1 : get_today_calendar_events env.calendar = .ok (evs.map eventLine) := by
    simp [get_today_calendar_events, hc]
  have h2 : ∃ ps, get_recent_package_emails env.mail = .ok ps := by
    by_cases hms : ms = []
    · exact ⟨[], by simp [get_recent_package_emails, hm, hms]⟩
    · exact ⟨ms.map msgLine, by simp [get_recent_package_emails, hm, hms]⟩
  rcases h2 with ⟨ps, h2⟩
  have h3 : build_morning_summary env =
      .ok (String.intercalate "\n"
        (composeParts env.todayStr w (get_top_news env.news none).global_politics
          (get_top_news env.news none).technology (evs.map eventLine) ps)) := by
    simp [build_morning_summary, hw, h1, h2]
  exact ⟨_, h3⟩

/-- Claim C1 witness: the amended theorem applied at a concrete environment
in which every issued request succeeds. -/
theorem build_morning_summary_total_witness :
    ∃ s, build_morning_summary envAllOk = .ok s :=
  build_morning_summary_total_when_fetches_succeed envAllOk weatherKeyMissingMsg
    [] [] rfl rfl rfl

/-- Claim C2 counterexample: the weather fetcher does not catch a failing
request — with the key configured and the provider answering an HTTP
error, `get_weather_summary` propagates the exception instead of returning
a fallback value. -/
theorem weather_fetcher_propagates_cex :
    get_weather_summary wEnvHttpError =
      .error "HTTPError: 401 Client Error: Unauthorized" := rfl

/-- Claim C2 (amended): the news fetcher catches every failure of its
requests and substitutes a fixed, labeled fallback without retrying, and
the weather fetcher does so for a missing API key; but the weather fetcher
propagates a failing request, and the calendar and mail fetchers propagate
every failure. -/
theorem fetcher_failure_handling_amended (nenv : NewsEnv) (limit : Option Nat)
    (wenv : WeatherEnv) (cenv : CalendarEnv) (menv : MailEnv) (e : String) :
    (keyFalsy nenv.nytKey = true → get_top_news nenv limit = keyMissingDict) ∧
    (keyFalsy nenv.nytKey = false → nenv.worldResp = .error e →
      get_top_news nenv limit = newsErrorDict e) ∧
    (keyFalsy wenv.weatherKey = true →
      get_weather_summary wenv = .ok weatherKeyMissingMsg) ∧
    (keyFalsy wenv.weatherKey = false → wenv.resp = .error e →
      get_weather_summary wenv = .error e) ∧
    (cenv.resp = .error e → get_today_calendar_events cenv = .error e) ∧
    (menv.resp = .error e → get_recent_package_emails menv = .error e) := by
  refine ⟨?_, ?_, ?_, ?_, ?_, ?_⟩
  · intro hk
    simp [get_top_news, hk]
  · intro hk hw
    simp [get_top_news, hk, hw]
  · intro hk
    simp [get_weather_summary, hk]
  · intro hk hr
    simp [get_weather_summary, hk, hr]
  · intro hr
    simp [get_today_calendar_events, hr]
  · intro hr
    simp [get_recent_package_emails, hr]

end AgentPark
